import Mathlib

/-!
Verification of the super-demo/sdk client library (Go variants in
`src/go/main.go` and `src/unnamed/part_000`, TypeScript variant in
`src/typescript/main.ts`) against its natural-language specification.

The SDK is a thin HTTP client: endpoint discovery over a fixed candidate
list, mini-app registration with a bounded retry loop, and a single-shot
remote function invocation.  Network effects are shallowly embedded: the
environment supplies the outcome of each probe / request attempt, and each
operation is a pure function from those outcomes to its result together
with the trace of requests it issued.
-/

namespace SuperSDK

/-- Outcome of one discovery probe (a GET to `<candidate>/list`): either the
transport layer fails (connection error / timeout), or an HTTP response with
some status code arrives. -/
inductive ProbeOutcome where
  | netError (msg : String)
  | response (status : Nat)

/-- The fixed ordered candidate list tried by `NewSuperAppSDK` (Go) and
`initialize` (TypeScript). -/
def candidateURLs : List String :=
  ["http://localhost:8080/v1/super", "http://host.docker.internal:8080/v1/super"]

/-- The hardcoded default adopted when no candidate is reachable. -/
def defaultBaseURL : String := "http://localhost:8080/v1/super"

/-- Go adoption test: `client.Get(url + "/list")` succeeds whenever the
transport returns any response at all (`err == nil`), regardless of its
HTTP status code. -/
def goProbeSucceeds : ProbeOutcome → Bool
  | .netError _ => false
  | .response _ => true

/-- TypeScript adoption test: `fetch` resolves for any HTTP response, but the
code adopts the candidate only when `response.ok` holds, i.e. the status is
in 200..299. -/
def tsProbeAdopts : ProbeOutcome → Bool
  | .netError _ => false
  | .response status => decide (200 ≤ status ∧ status ≤ 299)

/-- Shared shape of the discovery loops: walk the candidate list in order,
probing `<candidate>/list`; adopt the first candidate whose probe passes the
given adoption test, else fall back to `defaultBaseURL`.  `env k` is the
outcome of the `k`-th probe issued.  Returns the adopted base URL and the
ordered list of probe-request targets actually issued. -/
def discoverFrom (adopts : ProbeOutcome → Bool) (env : Nat → ProbeOutcome) :
    List String → Nat → String × List String
  | [], _ => (defaultBaseURL, [])
  | u :: rest, k =>
    if adopts (env k) then (u, [u ++ "/list"])
    else
      let r := discoverFrom adopts env rest (k + 1)
      (r.1, (u ++ "/list") :: r.2)

/-- `NewSuperAppSDK`'s discovery loop (both Go files): first candidate whose
probe returns without a transport error wins. -/
def goDiscover (env : Nat → ProbeOutcome) : String × List String :=
  discoverFrom goProbeSucceeds env candidateURLs 0

/-- `initialize`'s discovery loop (`src/typescript/main.ts`): first candidate
whose probe resolves with an ok (2xx) response wins; a resolved non-ok
response falls through to the next candidate just like a thrown fetch error. -/
def tsDiscoverInit (env : Nat → ProbeOutcome) : String × List String :=
  discoverFrom tsProbeAdopts env candidateURLs 0

/-- The probe targets of the full candidate list, in order. -/
def allProbeTargets : List String := candidateURLs.map (fun u => u ++ "/list")

/-- Client state held by the SDK: the API key given at construction and the
base URL fixed by discovery (`SuperAppSDK` struct in Go, the class fields in
TypeScript). -/
structure SuperAppSDK where
  apiKey : String
  baseURL : String

/-- `NewSuperAppSDK apiKey` (Go): run discovery, store the key and the
discovered (or default) base URL.  Also returns the probe trace. -/
def newSuperAppSDK (apiKey : String) (env : Nat → ProbeOutcome) :
    SuperAppSDK × List String :=
  let r := goDiscover env
  ({ apiKey := apiKey, baseURL := r.1 }, r.2)

/-- JSON values, as produced by `json.Marshal` / `JSON.stringify` and parsed
from response bodies.  The JSON library itself is an external collaborator of
the SDK; only the shape of the values the SDK builds matters here. -/
inductive Json where
  | null
  | bool (b : Bool)
  | num (n : Int)
  | str (s : String)
  | arr (elems : List Json)
  | obj (fields : List (String × Json))

/-- The field names of a JSON object, in serialization order. -/
def Json.objKeys : Json → List String
  | .obj fields => fields.map Prod.fst
  | _ => []

/-- Registration payload of the current variants (`register` in
`src/typescript/main.ts`, `Register` in `src/unnamed/part_000`):
app name, function list, and the normalized callback URL. -/
structure RegisterPayload where
  appName : String
  functions : List String
  url : String

/-- The callback-URL normalization both current variants apply before
building the payload: if the URL is non-empty and its last character is a
slash, drop that one character (`appURL.endsWith("/")` then
`appURL.slice(0, -1)` in TypeScript, `appURL[len(appURL)-1] == '/'` then
`appURL[:len(appURL)-1]` in Go; stated here on the character sequence of
the string). -/
def normalizeAppURL (appURL : String) : String :=
  if 0 < appURL.length ∧ appURL.data.getLast? = some '/' then
    String.mk appURL.data.dropLast
  else appURL

/-- Build the registration payload from the raw arguments (current variants). -/
def registerPayload (appName : String) (functions : List String) (appURL : String) :
    RegisterPayload :=
  { appName := appName, functions := functions, url := normalizeAppURL appURL }

/-- JSON encoding of the current registration payload: exactly the fields
`appName`, `functions`, `url` (this is also `json.Marshal`'s alphabetical
key order for the Go map). -/
def encodeRegisterPayload (p : RegisterPayload) : Json :=
  .obj [("appName", .str p.appName),
        ("functions", .arr (p.functions.map .str)),
        ("url", .str p.url)]

/-- JSON body built by the legacy `Register(appName, functions)` in
`src/go/main.go`: no `url` field at all (and no `appURL` parameter). -/
def encodeLegacyRegisterPayload (appName : String) (functions : List String) : Json :=
  .obj [("appName", .str appName),
        ("functions", .arr (functions.map .str))]

/-- Outcome of one POST attempt in the registration retry loop. -/
inductive AttemptOutcome where
  | transportError (msg : String)
  | httpResponse (status : Nat) (body : String)

/-- Errors `Register` can in principle surface.  `encodeErr` is the
encode-stage kind: the type admits it, the code never produces it (the
`json.Marshal` error is discarded with `payload, _ :=`). -/
inductive RegisterError where
  | transportErr (msg : String)
  | statusErr (status : Nat) (body : String)
  | encodeErr (msg : String)
deriving DecidableEq

/-- Observable events of the registration loop: a POST of the payload bytes
to a URL, or a sleep of the given number of milliseconds. -/
inductive RegisterEvent where
  | post (url : String) (body : String)
  | sleep (ms : Nat)
deriving DecidableEq

/-- Whether a register event is a POST attempt. -/
def RegisterEvent.isPost : RegisterEvent → Bool
  | .post _ _ => true
  | .sleep _ => false

/-- Success test of one attempt in the two Go registers: they check
`resp.StatusCode == http.StatusOK`, i.e. exactly 200. -/
def attemptIsOK : AttemptOutcome → Bool
  | .transportError _ => false
  | .httpResponse status _ => status == 200

/-- Success test of one attempt in the TypeScript `register`: it checks
`response.ok`, i.e. any status in 200..299. -/
def tsAttemptIsOK : AttemptOutcome → Bool
  | .transportError _ => false
  | .httpResponse status _ => decide (200 ≤ status ∧ status ≤ 299)

/-- The error recorded from a failed attempt (`lastErr` in the source). -/
def attemptError : AttemptOutcome → RegisterError
  | .transportError msg => .transportErr msg
  | .httpResponse status body => .statusErr status body

/-- The registration retry loop of the two Go variants
(`for i := 0; i < 3; i++`): POST the payload; on a
transport error record it, sleep 1s and retry; on status 200
(`resp.StatusCode == http.StatusOK`) return success
immediately; on any other status record the status error, sleep 1s and
retry; after the attempts are exhausted return the last recorded error.
`fuel` counts remaining attempts, `i` the index of the next attempt,
`lastErr` the last recorded error.  Returns `none` on success together with
the event trace. -/
def registerLoop (url body : String) (outcomes : Nat → AttemptOutcome) :
    Nat → Nat → Option RegisterError → Option RegisterError × List RegisterEvent
  | 0, _, lastErr => (lastErr, [])
  | fuel + 1, i, _ =>
    match outcomes i with
    | .transportError msg =>
      let rest := registerLoop url body outcomes fuel (i + 1)
        (some (.transportErr msg))
      (rest.1, .post url body :: .sleep 1000 :: rest.2)
    | .httpResponse status respBody =>
      if status == 200 then (none, [.post url body])
      else
        let rest := registerLoop url body outcomes fuel (i + 1)
          (some (.statusErr status respBody))
        (rest.1, .post url body :: .sleep 1000 :: rest.2)

/-- The bytes actually posted: `payload, _ := json.Marshal(...)` keeps the
first result and discards the error; on a marshal error the first result is
the nil byte slice, i.e. an empty body. -/
def marshalledBytes : Except String String → String
  | .ok bytes => bytes
  | .error _ => ""

/-- The full `Register` of the current Go variant: normalize the URL, build
and marshal the payload (marshalling is the external `json.Marshal`, passed
in as `marshal`), then run the 3-attempt retry loop against
`<baseURL>/register`. -/
def registerRun (sdk : SuperAppSDK) (appName : String) (functions : List String)
    (appURL : String) (marshal : RegisterPayload → Except String String)
    (outcomes : Nat → AttemptOutcome) :
    Option RegisterError × List RegisterEvent :=
  registerLoop (sdk.baseURL ++ "/register")
    (marshalledBytes (marshal (registerPayload appName functions appURL)))
    outcomes 3 0 none

/-- The registration retry loop of the TypeScript `register`
(`for (let i = 0; i < 3; i++)`): identical control flow to the Go loop,
except that the success test is `response.ok`, i.e. any 2xx status — a
resolved non-ok response records the status error, and both it and a caught
fetch error are followed by the 1000 ms `setTimeout` delay before the next
attempt; after the attempts are exhausted the last recorded error is
thrown. -/
def tsRegisterLoop (url body : String) (outcomes : Nat → AttemptOutcome) :
    Nat → Nat → Option RegisterError → Option RegisterError × List RegisterEvent
  | 0, _, lastErr => (lastErr, [])
  | fuel + 1, i, _ =>
    match outcomes i with
    | .transportError msg =>
      let rest := tsRegisterLoop url body outcomes fuel (i + 1)
        (some (.transportErr msg))
      (rest.1, .post url body :: .sleep 1000 :: rest.2)
    | .httpResponse status respBody =>
      if 200 ≤ status ∧ status ≤ 299 then (none, [.post url body])
      else
        let rest := tsRegisterLoop url body outcomes fuel (i + 1)
          (some (.statusErr status respBody))
        (rest.1, .post url body :: .sleep 1000 :: rest.2)

/-- The full TypeScript `register`: normalize the URL, build the payload and
serialize it with the external `JSON.stringify` (passed in as `stringify`),
then run the 3-attempt retry loop against `<baseURL>/register`. -/
def tsRegisterRun (sdk : SuperAppSDK) (appName : String)
    (functions : List String) (appURL : String)
    (stringify : RegisterPayload → String) (outcomes : Nat → AttemptOutcome) :
    Option RegisterError × List RegisterEvent :=
  tsRegisterLoop (sdk.baseURL ++ "/register")
    (stringify (registerPayload appName functions appURL)) outcomes 3 0 none

/-- JSON body built by `CallFunction` in `src/unnamed/part_000`: exactly the
fields `caller`, `targetApp`, `functionName`, `payload` (listed here in
`json.Marshal`'s alphabetical key order for the Go map). -/
def callFunctionBody (caller targetApp functionName : String) (payload : Json) :
    Json :=
  .obj [("caller", .str caller),
        ("functionName", .str functionName),
        ("payload", payload),
        ("targetApp", .str targetApp)]

/-- JSON body built by `callFunction` in `src/typescript/main.ts`: the same
four fields, in `JSON.stringify`'s insertion order. -/
def tsCallFunctionBody (caller targetApp functionName : String) (payload : Json) :
    Json :=
  .obj [("caller", .str caller),
        ("targetApp", .str targetApp),
        ("functionName", .str functionName),
        ("payload", payload)]

/-- JSON body built by the legacy `CallFunction(url, caller, ...)` in
`src/go/main.go`: a fifth `url` field carrying the per-call target URL
parameter (alphabetical key order again). -/
def legacyCallFunctionBody (url caller targetApp functionName : String)
    (payload : Json) : Json :=
  .obj [("caller", .str caller),
        ("functionName", .str functionName),
        ("payload", payload),
        ("targetApp", .str targetApp),
        ("url", .str url)]

/-- A single outgoing HTTP request of the invocation path. -/
inductive CallEvent where
  | post (url : String) (body : Json)

/-- Outcome of the single Go invocation request.  A timeout of the 10-second
`http.Client` surfaces as `netError` whose message is whatever the transport
reports (Go has no separate timeout branch in this function). -/
inductive GoCallOutcome where
  | netError (msg : String)
  | response (status : Nat) (body : String)

/-- The distinct error-construction sites of the Go `CallFunction`, one
constructor per `fmt.Errorf` format string. -/
inductive GoCallError where
  | callErr (msg : String)
  | statusErr (status : Nat) (body : String)
  | decodeErr (msg : String)
deriving DecidableEq

/-- The error message each Go error site formats. -/
def goCallErrorMessage : GoCallError → String
  | .callErr msg => "error calling function: " ++ msg
  | .statusErr status body =>
      "server returned non-OK status: " ++ toString status ++ " - " ++ body
  | .decodeErr msg => "error decoding response JSON: " ++ msg

/-- `CallFunction` of `src/unnamed/part_000`: one POST of
`callFunctionBody` to `<baseURL>/call-function`; a transport error is
wrapped as `callErr`; a non-200 status yields `statusErr` with the status
and raw body; otherwise the body is unmarshalled into a JSON object map by
the external `json.Unmarshal` (passed in as `unmarshal`), a failure yielding
`decodeErr` and success the parsed object.  Returns the result and the
single-request trace. -/
def goCallFunction (sdk : SuperAppSDK) (caller targetApp functionName : String)
    (payload : Json) (unmarshal : String → Except String (List (String × Json)))
    (outcome : GoCallOutcome) :
    Except GoCallError (List (String × Json)) × List CallEvent :=
  let requestBody := callFunctionBody caller targetApp functionName payload
  let result : Except GoCallError (List (String × Json)) :=
    match outcome with
    | .netError msg => .error (.callErr msg)
    | .response status respBody =>
      if status == 200 then
        match unmarshal respBody with
        | .error msg => .error (.decodeErr msg)
        | .ok result => .ok result
      else .error (.statusErr status respBody)
  (result, [.post (sdk.baseURL ++ "/call-function") requestBody])

/-- The legacy `CallFunction` of `src/go/main.go`: identical control flow,
but takes the extra per-call `url` parameter and posts
`legacyCallFunctionBody` (which includes it as a fifth field). -/
def goCallFunctionLegacy (sdk : SuperAppSDK)
    (url caller targetApp functionName : String) (payload : Json)
    (unmarshal : String → Except String (List (String × Json)))
    (outcome : GoCallOutcome) :
    Except GoCallError (List (String × Json)) × List CallEvent :=
  let requestBody := legacyCallFunctionBody url caller targetApp functionName payload
  let result : Except GoCallError (List (String × Json)) :=
    match outcome with
    | .netError msg => .error (.callErr msg)
    | .response status respBody =>
      if status == 200 then
        match unmarshal respBody with
        | .error msg => .error (.decodeErr msg)
        | .ok result => .ok result
      else .error (.statusErr status respBody)
  (result, [.post (sdk.baseURL ++ "/call-function") requestBody])

/-- Outcome of the single TypeScript `fetch`: either the promise rejects
with an error carrying a `name` (the abort of the 10-second timer rejects
with name `AbortError`), or a response with a status and body text arrives. -/
inductive TsCallOutcome where
  | fetchReject (name : String) (msg : String)
  | response (status : Nat) (body : String)

/-- The distinct error kinds the TypeScript `callFunction` can throw, one
constructor per throw site. -/
inductive TsCallError where
  | statusErr (status : Nat) (body : String)
  | decodeErr (msg : String)
  | timeoutErr
  | transportErr (name : String) (msg : String)
deriving DecidableEq

/-- The message of each TypeScript error: the two `Error(...)` format
strings, the fixed timeout message of the `AbortError` branch, and the
rethrown original message for other fetch rejections. -/
def tsCallErrorMessage : TsCallError → String
  | .statusErr status body =>
      "Server returned non-OK status: " ++ toString status ++ " - " ++ body
  | .decodeErr msg => "Error parsing response JSON: " ++ msg
  | .timeoutErr => "Request timed out after 10 seconds"
  | .transportErr _ msg => msg

/-- `callFunction` of `src/typescript/main.ts`: one POST of
`tsCallFunctionBody` to `<baseURL>/call-function`; a rejected fetch whose
error is named `AbortError` becomes the timeout error, any other rejection
is rethrown; a resolved response that is not ok (2xx) throws the status
error with status and raw body; otherwise the body is given to the external
`JSON.parse` (passed in as `parse`), a parse failure throwing the decode
error and success returning the parsed value. -/
def tsCallFunction (sdk : SuperAppSDK) (caller targetApp functionName : String)
    (payload : Json) (parse : String → Except String Json)
    (outcome : TsCallOutcome) : Except TsCallError Json × List CallEvent :=
  let requestBody := tsCallFunctionBody caller targetApp functionName payload
  let result : Except TsCallError Json :=
    match outcome with
    | .fetchReject name msg =>
      if name == "AbortError" then .error .timeoutErr
      else .error (.transportErr name msg)
    | .response status respBody =>
      if 200 ≤ status ∧ status ≤ 299 then
        match parse respBody with
        | .error msg => .error (.decodeErr msg)
        | .ok v => .ok v
      else .error (.statusErr status respBody)
  (result, [.post (sdk.baseURL ++ "/call-function") requestBody])

/-- Substring containment, as a decomposition into a prefix and a suffix
around the contained text. -/
def StrContains (m sub : String) : Prop := ∃ p q, m = p ++ sub ++ q

-- Concrete inputs used by witnesses and counterexamples.

/-- Probe environment where the first candidate answers with HTTP 500 and
the second with HTTP 204. -/
def probeEnv500Then204 : Nat → ProbeOutcome := fun k =>
  if k == 0 then .response 500 else .response 204

/-- Probe environment where every probe fails at the transport layer. -/
def probeEnvAllFail : Nat → ProbeOutcome := fun _ => .netError "connection refused"

/-- Probe environment where every probe answers with HTTP 404. -/
def probeEnvNotFound : Nat → ProbeOutcome := fun _ => .response 404

/-- A concrete client for witnesses. -/
def sdkW : SuperAppSDK :=
  { apiKey := "test-key", baseURL := "http://localhost:8080/v1/super" }

/-- Register-attempt environment where every POST fails at the transport
layer. -/
def outcomesAllFail : Nat → AttemptOutcome := fun _ =>
  .transportError "connection refused"

/-- Register-attempt environment where every POST is answered with
HTTP 204 and an empty body. -/
def outcomes204 : Nat → AttemptOutcome := fun _ => .httpResponse 204 ""

/-- A marshaller that always succeeds with fixed bytes. -/
def marshalOkW : RegisterPayload → Except String String := fun _ =>
  Except.ok "payload-bytes"

/-- A marshaller that always fails. -/
def marshalFailW : RegisterPayload → Except String String := fun _ =>
  Except.error "json: unsupported type"

/-- An unmarshaller that always fails. -/
def unmarshalFailW : String → Except String (List (String × Json)) := fun _ =>
  Except.error "invalid character"

/-- An unmarshaller that always yields the empty object. -/
def unmarshalEmptyW : String → Except String (List (String × Json)) := fun _ =>
  Except.ok []

/-- A JSON parser that always fails. -/
def parseFailW : String → Except String Json := fun _ =>
  Except.error "Unexpected token"

/-- A JSON parser that always yields null. -/
def parseNullW : String → Except String Json := fun _ => Except.ok Json.null

-- Helper lemmas.

/-- Unfolding of the discovery loop over the two-candidate list. -/
lemma discoverFrom_pair (adopts : ProbeOutcome → Bool) (env : Nat → ProbeOutcome)
    (a b : String) (k : Nat) :
    discoverFrom adopts env [a, b] k =
      if adopts (env k) then (a, [a ++ "/list"])
      else if adopts (env (k + 1)) then (b, [a ++ "/list", b ++ "/list"])
      else (defaultBaseURL, [a ++ "/list", b ++ "/list"]) := by
  by_cases h0 : adopts (env k) <;> by_cases h1 : adopts (env (k + 1)) <;>
    simp [discoverFrom, h0, h1]

/-- The registration loop never produces an encode-stage error: every error
it records comes from `attemptError`, so if the incoming `lastErr` is not an
encode error the result is not one either. -/
lemma registerLoop_no_encodeErr (url body : String)
    (outcomes : Nat → AttemptOutcome) :
    ∀ (fuel i : Nat) (lastErr : Option RegisterError),
      (∀ m, lastErr ≠ some (RegisterError.encodeErr m)) →
      ∀ m, (registerLoop url body outcomes fuel i lastErr).1 ≠
        some (RegisterError.encodeErr m) := by
  intro fuel
  induction fuel with
  | zero =>
    intro i lastErr h m
    simpa [registerLoop] using h m
  | succ n ih =>
    intro i lastErr h m
    rcases e : outcomes i with msg | ⟨s, b⟩
    · simpa [registerLoop, e] using
        ih (i + 1) (some (.transportErr msg)) (fun m' h' => by cases h') m
    · by_cases hs : (s == 200) = true
      · simp [registerLoop, e, hs]
      · simpa [registerLoop, e, hs] using
          ih (i + 1) (some (.statusErr s b)) (fun m' h' => by cases h') m

/-- Base case of the TypeScript retry loop: out of attempts, return the
last recorded error. -/
lemma tsRegisterLoop_zero (url body : String) (outcomes : Nat → AttemptOutcome)
    (i : Nat) (lastErr : Option RegisterError) :
    tsRegisterLoop url body outcomes 0 i lastErr = (lastErr, []) := rfl

/-- One unfolding of the TypeScript retry loop, phrased through the attempt
success test `tsAttemptIsOK`. -/
lemma tsRegisterLoop_step (url body : String) (outcomes : Nat → AttemptOutcome)
    (fuel i : Nat) (lastErr : Option RegisterError) :
    tsRegisterLoop url body outcomes (fuel + 1) i lastErr =
      if tsAttemptIsOK (outcomes i) then (none, [.post url body])
      else
        ((tsRegisterLoop url body outcomes fuel (i + 1)
            (some (attemptError (outcomes i)))).1,
         .post url body :: .sleep 1000 ::
           (tsRegisterLoop url body outcomes fuel (i + 1)
             (some (attemptError (outcomes i)))).2) := by
  rcases e : outcomes i with msg | ⟨s, b⟩
  · simp [tsRegisterLoop, tsAttemptIsOK, e, attemptError]
  · by_cases hc : 200 ≤ s ∧ s ≤ 299
    · simp [tsRegisterLoop, tsAttemptIsOK, e, hc]
    · simp [tsRegisterLoop, tsAttemptIsOK, e, hc, attemptError]

-- Claim theorems.

/-- C1 (counterexample): the claim that discovery adopts the first candidate
whose probe returns any non-network-error response regardless of its HTTP
status code fails on the TypeScript variant: when the first candidate
answers with HTTP 500 (a non-network-error response) and the second with
HTTP 204, `initialize` does not adopt the first candidate — it probes the
second candidate as well and adopts that one. -/
theorem c1_discovery_counterexample :
    probeEnv500Then204 0 = ProbeOutcome.response 500 ∧
    (tsDiscoverInit probeEnv500Then204).1 ≠ "http://localhost:8080/v1/super" ∧
    (tsDiscoverInit probeEnv500Then204).1 = "http://host.docker.internal:8080/v1/super" ∧
    (tsDiscoverInit probeEnv500Then204).2 = allProbeTargets := by
  refine ⟨rfl, by decide, by decide, by decide⟩

/-- C1 (amended): both discovery loops probe the fixed candidate list
strictly in order via GET `<candidate>/list` and never probe a later
candidate once an earlier one is adopted; the Go variants adopt the first
candidate whose probe returns any non-network-error response regardless of
its HTTP status code, while the TypeScript variant adopts the first
candidate whose probe resolves with an ok (2xx) response and treats a
non-2xx response like a failed probe. -/
theorem c1_discovery_amended (env : Nat → ProbeOutcome) :
    (goProbeSucceeds (env 0) = true →
      goDiscover env =
        ("http://localhost:8080/v1/super", ["http://localhost:8080/v1/super/list"])) ∧
    (goProbeSucceeds (env 0) = false → goProbeSucceeds (env 1) = true →
      goDiscover env = ("http://host.docker.internal:8080/v1/super", allProbeTargets)) ∧
    (goDiscover env).2 = allProbeTargets.take (goDiscover env).2.length ∧
    (tsProbeAdopts (env 0) = true →
      tsDiscoverInit env =
        ("http://localhost:8080/v1/super", ["http://localhost:8080/v1/super/list"])) ∧
    (tsProbeAdopts (env 0) = false → tsProbeAdopts (env 1) = true →
      tsDiscoverInit env = ("http://host.docker.internal:8080/v1/super", allProbeTargets)) ∧
    (tsDiscoverInit env).2 = allProbeTargets.take (tsDiscoverInit env).2.length := by
  have hgo := discoverFrom_pair goProbeSucceeds env
    "http://localhost:8080/v1/super" "http://host.docker.internal:8080/v1/super" 0
  have hts := discoverFrom_pair tsProbeAdopts env
    "http://localhost:8080/v1/super" "http://host.docker.internal:8080/v1/super" 0
  refine ⟨?_, ?_, ?_, ?_, ?_, ?_⟩
  · intro h0
    simp only [goDiscover, candidateURLs, hgo, h0, if_true]
    decide
  · intro h0 h1
    simp only [goDiscover, candidateURLs, hgo, h0, h1, if_true, if_false,
      Bool.false_eq_true]
    decide
  · by_cases h0 : goProbeSucceeds (env 0) <;> by_cases h1 : goProbeSucceeds (env 1) <;>
      simp only [goDiscover, candidateURLs, hgo, h0, h1, if_true, if_false,
        Bool.false_eq_true] <;> decide
  · intro h0
    simp only [tsDiscoverInit, candidateURLs, hts, h0, if_true]
    decide
  · intro h0 h1
    simp only [tsDiscoverInit, candidateURLs, hts, h0, h1, if_true, if_false,
      Bool.false_eq_true]
    decide
  · by_cases h0 : tsProbeAdopts (env 0) <;> by_cases h1 : tsProbeAdopts (env 1) <;>
      simp only [tsDiscoverInit, candidateURLs, hts, h0, h1, if_true, if_false,
        Bool.false_eq_true] <;> decide

/-- C1 (witness): with every probe answering HTTP 404, the Go discovery
adopts the first candidate after a single probe. -/
theorem c1_discovery_witness :
    goDiscover probeEnvNotFound =
      ("http://localhost:8080/v1/super", ["http://localhost:8080/v1/super/list"]) :=
  (c1_discovery_amended probeEnvNotFound).1 rfl

/-- C2 (confirmed): both discovery loops always complete with a non-empty
base URL, and when no candidate's probe succeeds the adopted base URL is the
hardcoded default. -/
theorem c2_discovery_fallback (env : Nat → ProbeOutcome) :
    (goDiscover env).1 ≠ "" ∧
    (tsDiscoverInit env).1 ≠ "" ∧
    (goProbeSucceeds (env 0) = false → goProbeSucceeds (env 1) = false →
      (goDiscover env).1 = defaultBaseURL) ∧
    (tsProbeAdopts (env 0) = false → tsProbeAdopts (env 1) = false →
      (tsDiscoverInit env).1 = defaultBaseURL) := by
  have hgo := discoverFrom_pair goProbeSucceeds env
    "http://localhost:8080/v1/super" "http://host.docker.internal:8080/v1/super" 0
  have hts := discoverFrom_pair tsProbeAdopts env
    "http://localhost:8080/v1/super" "http://host.docker.internal:8080/v1/super" 0
  refine ⟨?_, ?_, ?_, ?_⟩
  · by_cases h0 : goProbeSucceeds (env 0) <;> by_cases h1 : goProbeSucceeds (env 1) <;>
      simp only [goDiscover, candidateURLs, hgo, h0, h1, if_true, if_false,
        Bool.false_eq_true] <;> decide
  · by_cases h0 : tsProbeAdopts (env 0) <;> by_cases h1 : tsProbeAdopts (env 1) <;>
      simp only [tsDiscoverInit, candidateURLs, hts, h0, h1, if_true, if_false,
        Bool.false_eq_true] <;> decide
  · intro h0 h1
    simp only [goDiscover, candidateURLs, hgo, h0, h1, if_false, Bool.false_eq_true]
  · intro h0 h1
    simp only [tsDiscoverInit, candidateURLs, hts, h0, h1, if_false,
      Bool.false_eq_true]

/-- C2 (witness): with every probe failing at the transport layer, the Go
discovery falls back to the default base URL. -/
theorem c2_discovery_fallback_witness :
    (goDiscover probeEnvAllFail).1 = defaultBaseURL :=
  (c2_discovery_fallback probeEnvAllFail).2.2.1 rfl rfl

/-- C3 (counterexample): the claim that the registration payload always has
exactly the fields `appName`, `functions`, `url` fails on the legacy
`Register` of `src/go/main.go`: its payload for a concrete input has only
the fields `appName` and `functions` and no `url` field at all (the
function does not even take an `appURL` parameter). -/
theorem c3_register_payload_counterexample :
    (encodeLegacyRegisterPayload "app1" ["getTemp"]).objKeys =
      ["appName", "functions"] ∧
    "url" ∉ (encodeLegacyRegisterPayload "app1" ["getTemp"]).objKeys ∧
    (encodeLegacyRegisterPayload "app1" ["getTemp"]).objKeys ≠
      ["appName", "functions", "url"] := by
  refine ⟨rfl, by decide, by decide⟩

/-- C3 (amended): in the TypeScript `register` and the `Register` of
`src/unnamed/part_000`, the outgoing payload has exactly the fields
`appName`, `functions`, `url`; `url` is `appURL` with exactly one trailing
slash removed when one is present and is forwarded unchanged otherwise, and
the (possibly empty) functions list is forwarded as-is.  The legacy
`Register` of `src/go/main.go` instead sends only `appName` and
`functions`. -/
theorem c3_register_payload_amended (appName : String) (functions : List String)
    (appURL : String) :
    (encodeRegisterPayload (registerPayload appName functions appURL)).objKeys =
      ["appName", "functions", "url"] ∧
    (registerPayload appName functions appURL).functions = functions ∧
    (registerPayload appName functions appURL).appName = appName ∧
    (appURL.data.getLast? ≠ some '/' →
      (registerPayload appName functions appURL).url = appURL) ∧
    (registerPayload appName functions "http://x.test:3000/").url =
      "http://x.test:3000" ∧
    (registerPayload appName functions "http://x//").url = "http://x/" ∧
    (registerPayload appName functions "").url = "" ∧
    "url" ∉ (encodeLegacyRegisterPayload appName functions).objKeys := by
  refine ⟨rfl, rfl, rfl, ?_,
    (by decide : normalizeAppURL "http://x.test:3000/" = "http://x.test:3000"),
    (by decide : normalizeAppURL "http://x//" = "http://x/"),
    (by decide : normalizeAppURL "" = ""), ?_⟩
  · intro h
    simp [registerPayload, normalizeAppURL, h]
  · simp [encodeLegacyRegisterPayload, Json.objKeys]

/-- C3 (witness): a concrete registration whose callback URL carries no
trailing slash is forwarded unchanged. -/
theorem c3_register_payload_witness :
    (registerPayload "weather" ["getTemp"] "http://x.test:3000").url =
      "http://x.test:3000" :=
  (c3_register_payload_amended "weather" ["getTemp"] "http://x.test:3000").2.2.2.1
    (by decide)

/-- C4 (confirmed): in both register variants the retry loop makes at most
3 POST attempts to `<baseURL>/register`, separated by 1000 ms sleeps; it
returns success immediately after the first successful attempt, issuing no
further attempts; and when all 3 attempts fail it returns exactly the error
of the last attempt (the final transport error, or the final non-OK status
with its response body).  The Go loops test success as status exactly 200
and the TypeScript loop as `response.ok` (any 2xx); on the claim's
per-attempt outcome alphabet — transport failure, non-success HTTP status,
or HTTP 200 — the two tests coincide, so within that alphabet both variants
return success exactly at the attempts yielding HTTP 200. -/
theorem c4_register_retry (url body : String) (outcomes : Nat → AttemptOutcome)
    (sdk : SuperAppSDK) (appName : String) (functions : List String)
    (appURL : String) (marshal : RegisterPayload → Except String String)
    (stringify : RegisterPayload → String) :
    registerRun sdk appName functions appURL marshal outcomes =
      registerLoop (sdk.baseURL ++ "/register")
        (marshalledBytes (marshal (registerPayload appName functions appURL)))
        outcomes 3 0 none ∧
    (attemptIsOK (outcomes 0) = true →
      registerLoop url body outcomes 3 0 none = (none, [.post url body])) ∧
    (attemptIsOK (outcomes 0) = false → attemptIsOK (outcomes 1) = true →
      registerLoop url body outcomes 3 0 none =
        (none, [.post url body, .sleep 1000, .post url body])) ∧
    (attemptIsOK (outcomes 0) = false → attemptIsOK (outcomes 1) = false →
      attemptIsOK (outcomes 2) = true →
      registerLoop url body outcomes 3 0 none =
        (none, [.post url body, .sleep 1000, .post url body, .sleep 1000,
                .post url body])) ∧
    (attemptIsOK (outcomes 0) = false → attemptIsOK (outcomes 1) = false →
      attemptIsOK (outcomes 2) = false →
      registerLoop url body outcomes 3 0 none =
        (some (attemptError (outcomes 2)),
         [.post url body, .sleep 1000, .post url body, .sleep 1000, .post url body,
          .sleep 1000])) ∧
    (registerLoop url body outcomes 3 0 none).2.countP RegisterEvent.isPost ≤ 3 ∧
    tsRegisterRun sdk appName functions appURL stringify outcomes =
      tsRegisterLoop (sdk.baseURL ++ "/register")
        (stringify (registerPayload appName functions appURL)) outcomes 3 0 none ∧
    (tsAttemptIsOK (outcomes 0) = true →
      tsRegisterLoop url body outcomes 3 0 none = (none, [.post url body])) ∧
    (tsAttemptIsOK (outcomes 0) = false → tsAttemptIsOK (outcomes 1) = true →
      tsRegisterLoop url body outcomes 3 0 none =
        (none, [.post url body, .sleep 1000, .post url body])) ∧
    (tsAttemptIsOK (outcomes 0) = false → tsAttemptIsOK (outcomes 1) = false →
      tsAttemptIsOK (outcomes 2) = true →
      tsRegisterLoop url body outcomes 3 0 none =
        (none, [.post url body, .sleep 1000, .post url body, .sleep 1000,
                .post url body])) ∧
    (tsAttemptIsOK (outcomes 0) = false → tsAttemptIsOK (outcomes 1) = false →
      tsAttemptIsOK (outcomes 2) = false →
      tsRegisterLoop url body outcomes 3 0 none =
        (some (attemptError (outcomes 2)),
         [.post url body, .sleep 1000, .post url body, .sleep 1000, .post url body,
          .sleep 1000])) ∧
    (tsRegisterLoop url body outcomes 3 0 none).2.countP RegisterEvent.isPost ≤ 3 ∧
    (∀ status rb, status = 200 ∨ ¬(200 ≤ status ∧ status ≤ 299) →
      tsAttemptIsOK (.httpResponse status rb) =
        attemptIsOK (.httpResponse status rb)) ∧
    (∀ m, tsAttemptIsOK (.transportError m) = attemptIsOK (.transportError m)) := by
  refine ⟨rfl, ?_, ?_, ?_, ?_, ?_, rfl, ?_, ?_, ?_, ?_, ?_, ?_, fun m => rfl⟩
  · intro h0
    rcases e0 : outcomes 0 with m0 | ⟨s0, b0⟩ <;> rw [e0] at h0 <;>
      simp [attemptIsOK] at h0
    · simp [registerLoop, e0, h0]
  · intro h0 h1
    rcases e0 : outcomes 0 with m0 | ⟨s0, b0⟩ <;> rw [e0] at h0 <;>
      simp [attemptIsOK] at h0 <;>
    rcases e1 : outcomes 1 with m1 | ⟨s1, b1⟩ <;> rw [e1] at h1 <;>
      simp [attemptIsOK] at h1 <;>
    simp [registerLoop, e0, e1, h0, h1]
  · intro h0 h1 h2
    rcases e0 : outcomes 0 with m0 | ⟨s0, b0⟩ <;> rw [e0] at h0 <;>
      simp [attemptIsOK] at h0 <;>
    rcases e1 : outcomes 1 with m1 | ⟨s1, b1⟩ <;> rw [e1] at h1 <;>
      simp [attemptIsOK] at h1 <;>
    rcases e2 : outcomes 2 with m2 | ⟨s2, b2⟩ <;> rw [e2] at h2 <;>
      simp [attemptIsOK] at h2 <;>
    simp [registerLoop, e0, e1, e2, h0, h1, h2]
  · intro h0 h1 h2
    rcases e0 : outcomes 0 with m0 | ⟨s0, b0⟩ <;> rw [e0] at h0 <;>
      simp [attemptIsOK] at h0 <;>
    rcases e1 : outcomes 1 with m1 | ⟨s1, b1⟩ <;> rw [e1] at h1 <;>
      simp [attemptIsOK] at h1 <;>
    rcases e2 : outcomes 2 with m2 | ⟨s2, b2⟩ <;> rw [e2] at h2 <;>
      simp [attemptIsOK] at h2 <;>
    simp [registerLoop, e0, e1, e2, h0, h1, h2, attemptError]
  · rcases e0 : outcomes 0 with m0 | ⟨s0, b0⟩ <;>
    rcases e1 : outcomes 1 with m1 | ⟨s1, b1⟩ <;>
    rcases e2 : outcomes 2 with m2 | ⟨s2, b2⟩ <;>
      simp [registerLoop, e0, e1, e2, List.countP_cons, RegisterEvent.isPost] <;>
      split <;>
      simp [List.countP_cons, RegisterEvent.isPost] <;>
      split <;>
      simp [List.countP_cons, RegisterEvent.isPost] <;>
      split <;>
      simp [List.countP_cons, RegisterEvent.isPost]
  · intro h0
    simp [tsRegisterLoop_step, h0]
  · intro h0 h1
    simp [tsRegisterLoop_step, h0, h1]
  · intro h0 h1 h2
    simp [tsRegisterLoop_step, h0, h1, h2]
  · intro h0 h1 h2
    simp [tsRegisterLoop_step, h0, h1, h2, tsRegisterLoop_zero]
  · cases h0 : tsAttemptIsOK (outcomes 0) <;>
    cases h1 : tsAttemptIsOK (outcomes 1) <;>
    cases h2 : tsAttemptIsOK (outcomes 2) <;>
      simp [tsRegisterLoop_step, tsRegisterLoop_zero, h0, h1, h2, List.countP_cons,
        RegisterEvent.isPost]
  · intro status rb h
    rcases h with h | h
    · subst h
      rfl
    · have hne : status ≠ 200 := by
        intro he
        exact h (by omega)
      simp [tsAttemptIsOK, attemptIsOK, h, hne]

/-- C4 (witness): with every attempt failing at the transport layer, a
concrete Go registration run makes exactly 3 POSTs, sleeps 1000 ms after
each, and returns the last transport error; and with a first attempt
answered by HTTP 204 the TypeScript loop returns success after a single
POST with no sleeps. -/
theorem c4_register_retry_witness :
    registerLoop "http://localhost:8080/v1/super/register" "payload-bytes"
      outcomesAllFail 3 0 none =
      (some (RegisterError.transportErr "connection refused"),
       [.post "http://localhost:8080/v1/super/register" "payload-bytes", .sleep 1000,
        .post "http://localhost:8080/v1/super/register" "payload-bytes", .sleep 1000,
        .post "http://localhost:8080/v1/super/register" "payload-bytes",
        .sleep 1000]) ∧
    tsRegisterLoop "http://localhost:8080/v1/super/register" "payload-bytes"
      outcomes204 3 0 none =
      (none, [.post "http://localhost:8080/v1/super/register" "payload-bytes"]) :=
  ⟨(c4_register_retry "http://localhost:8080/v1/super/register" "payload-bytes"
      outcomesAllFail sdkW "app1" [] "http://x.test:3000" marshalOkW
      (fun _ => "payload-bytes")).2.2.2.2.1 rfl rfl rfl,
   (c4_register_retry "http://localhost:8080/v1/super/register" "payload-bytes"
      outcomes204 sdkW "app1" [] "http://x.test:3000" marshalOkW
      (fun _ => "payload-bytes")).2.2.2.2.2.2.2.1 rfl⟩

/-- C5 (counterexample): the claim that the invocation body has exactly the
four fields `caller`, `targetApp`, `functionName`, `payload` with no
per-call `url` field fails on the legacy `CallFunction` of
`src/go/main.go`: for a concrete input its body carries a fifth `url`
field taken from the extra per-call `url` parameter. -/
theorem c5_call_single_post_counterexample :
    "url" ∈ (legacyCallFunctionBody "http://app1.test:3000" "app1" "app2" "fn"
      Json.null).objKeys ∧
    (legacyCallFunctionBody "http://app1.test:3000" "app1" "app2" "fn"
      Json.null).objKeys ≠ ["caller", "functionName", "payload", "targetApp"] := by
  refine ⟨by decide, by decide⟩

/-- C5 (amended): every invocation performs exactly one POST to
`<baseURL>/call-function` (no retry) in all three variants; in the
TypeScript `callFunction` and the `CallFunction` of `src/unnamed/part_000`
the JSON body has exactly the four fields `caller`, `targetApp`,
`functionName`, `payload` and there is no per-call url parameter, while the
legacy `CallFunction` of `src/go/main.go` additionally accepts a per-call
`url` parameter and sends it as a fifth `url` body field. -/
theorem c5_call_single_post_amended (sdk : SuperAppSDK)
    (url caller targetApp functionName : String) (payload : Json)
    (unmarshal : String → Except String (List (String × Json)))
    (parse : String → Except String Json)
    (goOut : GoCallOutcome) (tsOut : TsCallOutcome) :
    (goCallFunction sdk caller targetApp functionName payload unmarshal goOut).2 =
      [.post (sdk.baseURL ++ "/call-function")
        (callFunctionBody caller targetApp functionName payload)] ∧
    (callFunctionBody caller targetApp functionName payload).objKeys =
      ["caller", "functionName", "payload", "targetApp"] ∧
    (tsCallFunction sdk caller targetApp functionName payload parse tsOut).2 =
      [.post (sdk.baseURL ++ "/call-function")
        (tsCallFunctionBody caller targetApp functionName payload)] ∧
    (tsCallFunctionBody caller targetApp functionName payload).objKeys =
      ["caller", "targetApp", "functionName", "payload"] ∧
    (goCallFunctionLegacy sdk url caller targetApp functionName payload unmarshal
        goOut).2 =
      [.post (sdk.baseURL ++ "/call-function")
        (legacyCallFunctionBody url caller targetApp functionName payload)] ∧
    (legacyCallFunctionBody url caller targetApp functionName payload).objKeys =
      ["caller", "functionName", "payload", "targetApp", "url"] :=
  ⟨rfl, rfl, rfl, rfl, rfl, rfl⟩

/-- C6 (confirmed): on a non-success HTTP status both current variants
return no result and fail with the status error, whose rendered message
contains both the numeric status code and the raw response body text. -/
theorem c6_call_status_error (sdk : SuperAppSDK)
    (caller targetApp functionName : String) (payload : Json)
    (unmarshal : String → Except String (List (String × Json)))
    (parse : String → Except String Json) (status : Nat) (body : String) :
    (status ≠ 200 →
      (goCallFunction sdk caller targetApp functionName payload unmarshal
        (.response status body)).1 =
        Except.error (GoCallError.statusErr status body)) ∧
    (¬(200 ≤ status ∧ status ≤ 299) →
      (tsCallFunction sdk caller targetApp functionName payload parse
        (.response status body)).1 =
        Except.error (TsCallError.statusErr status body)) ∧
    StrContains (goCallErrorMessage (.statusErr status body)) (toString status) ∧
    StrContains (goCallErrorMessage (.statusErr status body)) body ∧
    StrContains (tsCallErrorMessage (.statusErr status body)) (toString status) ∧
    StrContains (tsCallErrorMessage (.statusErr status body)) body := by
  refine ⟨?_, ?_, ?_, ?_, ?_, ?_⟩
  · intro h
    simp [goCallFunction, h]
  · intro h
    simp [tsCallFunction, h]
  · exact ⟨"server returned non-OK status: ", " - " ++ body,
      by simp [goCallErrorMessage, String.append_assoc]⟩
  · exact ⟨"server returned non-OK status: " ++ toString status ++ " - ", "",
      by simp [goCallErrorMessage, String.append_assoc]⟩
  · exact ⟨"Server returned non-OK status: ", " - " ++ body,
      by simp [tsCallErrorMessage, String.append_assoc]⟩
  · exact ⟨"Server returned non-OK status: " ++ toString status ++ " - ", "",
      by simp [tsCallErrorMessage, String.append_assoc]⟩

/-- C6 (witness): a concrete host response with status 500 and body
"internal error" yields the status error in both variants, and its message
contains "500" and "internal error". -/
theorem c6_call_status_error_witness :
    (goCallFunction sdkW "app1" "app2" "fn" Json.null unmarshalEmptyW
      (.response 500 "internal error")).1 =
      Except.error (GoCallError.statusErr 500 "internal error") ∧
    (tsCallFunction sdkW "app1" "app2" "fn" Json.null parseNullW
      (.response 500 "internal error")).1 =
      Except.error (TsCallError.statusErr 500 "internal error") ∧
    StrContains (goCallErrorMessage (.statusErr 500 "internal error")) "500" ∧
    StrContains (goCallErrorMessage (.statusErr 500 "internal error"))
      "internal error" :=
  have h := c6_call_status_error sdkW "app1" "app2" "fn" Json.null unmarshalEmptyW
    parseNullW 500 "internal error"
  ⟨h.1 (by decide), h.2.1 (by decide), h.2.2.1, h.2.2.2.1⟩

/-- C7 (confirmed): in both current variants, a success-status response
whose body fails to parse as JSON yields the decode error — an error kind
distinct from the non-success-status error — and a success-status response
whose body parses yields exactly the parsed object. -/
theorem c7_call_decode_error (sdk : SuperAppSDK)
    (caller targetApp functionName : String) (payload : Json)
    (unmarshal : String → Except String (List (String × Json)))
    (parse : String → Except String Json) (respBody : String) :
    (∀ m, unmarshal respBody = Except.error m →
      (goCallFunction sdk caller targetApp functionName payload unmarshal
        (.response 200 respBody)).1 = Except.error (GoCallError.decodeErr m)) ∧
    (∀ obj, unmarshal respBody = Except.ok obj →
      (goCallFunction sdk caller targetApp functionName payload unmarshal
        (.response 200 respBody)).1 = Except.ok obj) ∧
    (∀ m s b, GoCallError.decodeErr m ≠ GoCallError.statusErr s b) ∧
    (∀ status, 200 ≤ status → status ≤ 299 → ∀ m, parse respBody = Except.error m →
      (tsCallFunction sdk caller targetApp functionName payload parse
        (.response status respBody)).1 = Except.error (TsCallError.decodeErr m)) ∧
    (∀ status, 200 ≤ status → status ≤ 299 → ∀ v, parse respBody = Except.ok v →
      (tsCallFunction sdk caller targetApp functionName payload parse
        (.response status respBody)).1 = Except.ok v) ∧
    (∀ m s b, TsCallError.decodeErr m ≠ TsCallError.statusErr s b) := by
  refine ⟨?_, ?_, ?_, ?_, ?_, ?_⟩
  · intro m hm
    simp [goCallFunction, hm]
  · intro obj hobj
    simp [goCallFunction, hobj]
  · intro m s b h
    cases h
  · intro status hlo hhi m hm
    simp [tsCallFunction, hlo, hhi, hm]
  · intro status hlo hhi v hv
    simp [tsCallFunction, hlo, hhi, hv]
  · intro m s b h
    cases h

/-- C7 (witness): status 200 with the unparseable body "not-json" yields the
decode error, and status 200 with a parseable body yields the parsed
object. -/
theorem c7_call_decode_error_witness :
    (goCallFunction sdkW "app1" "app2" "fn" Json.null unmarshalFailW
      (.response 200 "not-json")).1 =
      Except.error (GoCallError.decodeErr "invalid character") ∧
    (goCallFunction sdkW "app1" "app2" "fn" Json.null unmarshalEmptyW
      (.response 200 "\x7b\x7d")).1 = Except.ok [] ∧
    GoCallError.decodeErr "invalid character" ≠
      GoCallError.statusErr 200 "not-json" :=
  have h1 := c7_call_decode_error sdkW "app1" "app2" "fn" Json.null unmarshalFailW
    parseFailW "not-json"
  have h2 := c7_call_decode_error sdkW "app1" "app2" "fn" Json.null unmarshalEmptyW
    parseNullW "\x7b\x7d"
  ⟨h1.1 "invalid character" rfl, h2.2.1 [] rfl,
    h1.2.2.1 "invalid character" 200 "not-json"⟩

/-- C8 (confirmed): the TypeScript `callFunction` maps the aborted fetch of
the 10-second timer to the dedicated timeout error — a kind distinct from
the generic transport error, with the fixed message "Request timed out
after 10 seconds" — while any other fetch rejection is rethrown unchanged;
the Go variant wraps every transport error (timeouts included) as
`callErr`, whose rendered message preserves distinct underlying transport
messages as distinct surfaced messages. -/
theorem c8_call_timeout_distinct (sdk : SuperAppSDK)
    (caller targetApp functionName : String) (payload : Json)
    (unmarshal : String → Except String (List (String × Json)))
    (parse : String → Except String Json) (msg : String) :
    (tsCallFunction sdk caller targetApp functionName payload parse
      (.fetchReject "AbortError" msg)).1 = Except.error TsCallError.timeoutErr ∧
    (∀ name m, name ≠ "AbortError" →
      (tsCallFunction sdk caller targetApp functionName payload parse
        (.fetchReject name m)).1 =
        Except.error (TsCallError.transportErr name m)) ∧
    (∀ name m, TsCallError.timeoutErr ≠ TsCallError.transportErr name m) ∧
    tsCallErrorMessage TsCallError.timeoutErr =
      "Request timed out after 10 seconds" ∧
    (goCallFunction sdk caller targetApp functionName payload unmarshal
      (.netError msg)).1 = Except.error (GoCallError.callErr msg) ∧
    (∀ m1 m2, m1 ≠ m2 →
      goCallErrorMessage (GoCallError.callErr m1) ≠
        goCallErrorMessage (GoCallError.callErr m2)) := by
  refine ⟨?_, ?_, ?_, rfl, rfl, ?_⟩
  · simp [tsCallFunction]
  · intro name m hname
    simp [tsCallFunction, hname]
  · intro name m h
    cases h
  · intro m1 m2 hne h
    apply hne
    have hd := congrArg String.data h
    simp only [goCallErrorMessage, String.data_append] at hd
    have := List.append_cancel_left hd
    cases m1
    cases m2
    congr 1

/-- C8 (witness): a concrete aborted fetch yields the timeout error, which
differs from a concrete transport error, and the Go wrapper keeps two
distinct transport messages distinct. -/
theorem c8_call_timeout_distinct_witness :
    (tsCallFunction sdkW "app1" "app2" "fn" Json.null parseNullW
      (.fetchReject "AbortError" "The operation was aborted")).1 =
      Except.error TsCallError.timeoutErr ∧
    TsCallError.timeoutErr ≠ TsCallError.transportErr "TypeError" "fetch failed" ∧
    goCallErrorMessage (GoCallError.callErr "Client.Timeout exceeded") ≠
      goCallErrorMessage (GoCallError.callErr "connection refused") :=
  have h := c8_call_timeout_distinct sdkW "app1" "app2" "fn" Json.null
    unmarshalEmptyW parseNullW "The operation was aborted"
  ⟨h.1, h.2.2.1 "TypeError" "fetch failed",
    h.2.2.2.2.2 "Client.Timeout exceeded" "connection refused" (by decide)⟩

/-- C9 (confirmed): the stored API key is never transmitted and never
influences any outgoing request or result: two clients that differ only in
their API key discover the same base URL with the same probe trace, and
issue identical registration and invocation runs (same requests, same
results). -/
theorem c9_apikey_noninterference (k1 k2 base : String)
    (env : Nat → ProbeOutcome) (appName : String) (functions : List String)
    (appURL : String) (marshal : RegisterPayload → Except String String)
    (outcomes : Nat → AttemptOutcome)
    (url caller targetApp functionName : String) (payload : Json)
    (unmarshal : String → Except String (List (String × Json)))
    (parse : String → Except String Json)
    (goOut : GoCallOutcome) (tsOut : TsCallOutcome) :
    (newSuperAppSDK k1 env).1.baseURL = (newSuperAppSDK k2 env).1.baseURL ∧
    (newSuperAppSDK k1 env).2 = (newSuperAppSDK k2 env).2 ∧
    registerRun { apiKey := k1, baseURL := base } appName functions appURL
        marshal outcomes =
      registerRun { apiKey := k2, baseURL := base } appName functions appURL
        marshal outcomes ∧
    goCallFunction { apiKey := k1, baseURL := base } caller targetApp functionName
        payload unmarshal goOut =
      goCallFunction { apiKey := k2, baseURL := base } caller targetApp functionName
        payload unmarshal goOut ∧
    tsCallFunction { apiKey := k1, baseURL := base } caller targetApp functionName
        payload parse tsOut =
      tsCallFunction { apiKey := k2, baseURL := base } caller targetApp functionName
        payload parse tsOut ∧
    goCallFunctionLegacy { apiKey := k1, baseURL := base } url caller targetApp
        functionName payload unmarshal goOut =
      goCallFunctionLegacy { apiKey := k2, baseURL := base } url caller targetApp
        functionName payload unmarshal goOut :=
  ⟨rfl, rfl, rfl, rfl, rfl, rfl⟩

/-- C10 (confirmed): `Register` never surfaces an encode-stage error — the
`json.Marshal` error is discarded, the POST proceeds with the bytes the
marshaller produced (the empty nil-slice body when it failed, exactly as
with a marshaller that returns empty bytes), and every error the run can
return is a transport error or a non-OK-status error, never an encoding
error. -/
theorem c10_register_no_encode_error (sdk : SuperAppSDK) (appName : String)
    (functions : List String) (appURL : String)
    (marshal : RegisterPayload → Except String String)
    (outcomes : Nat → AttemptOutcome) :
    (∀ m, (registerRun sdk appName functions appURL marshal outcomes).1 ≠
      some (RegisterError.encodeErr m)) ∧
    (∀ emsg, registerRun sdk appName functions appURL
        (fun _ => Except.error emsg) outcomes =
      registerRun sdk appName functions appURL (fun _ => Except.ok "") outcomes) :=
  ⟨fun m =>
    registerLoop_no_encodeErr (sdk.baseURL ++ "/register")
      (marshalledBytes (marshal (registerPayload appName functions appURL)))
      outcomes 3 0 none (fun m' h => by cases h) m,
   fun emsg => rfl⟩

/-- C10 (witness): a concrete run whose marshaller fails and whose attempts
all fail at the transport layer still does not return an encode error. -/
theorem c10_register_no_encode_error_witness :
    (registerRun sdkW "app1" ["getTemp"] "http://x.test:3000/" marshalFailW
      outcomesAllFail).1 ≠
      some (RegisterError.encodeErr "json: unsupported type") :=
  (c10_register_no_encode_error sdkW "app1" ["getTemp"] "http://x.test:3000/"
    marshalFailW outcomesAllFail).1 "json: unsupported type"

end SuperSDK
